import Mathlib

/-!
Verification development for the foresight-web forecast-collection and
aggregation engine.  The Python sources under `src/backend/` are shallowly
embedded: floating-point arithmetic is modelled exactly over `ℚ` (or `ℝ`
where square roots / logarithms occur), numpy list operations become
explicit list functions, and the regex-driven probability extractor is
modelled by a small backtracking regular-expression matcher together with
a term for each pattern literal appearing in the source.
-/

namespace Foresight

/-! ## Generic numpy-style helpers (`np.mean`, `np.average`, `np.median`,
`np.percentile`, `np.clip`, `np.max`, `np.min`) -/

variable {α : Type} [LinearOrderedField α]

/-- Model of `np.mean(l)`: sum divided by length (junk value `0/0 = 0` on `[]`). -/
def npMean (l : List α) : α := l.sum / (l.length : α)

/-- Model of `np.average(vals, weights=ws)`: weighted sum over total weight. -/
def npAverage (vals ws : List α) : α := (List.zipWith (· * ·) ws vals).sum / ws.sum

/-- Model of `np.clip(x, lo, hi)`. -/
def npClip (x lo hi : α) : α := min (max x lo) hi

/-- Ascending sort used to model numpy order statistics. -/
def sortedList (l : List α) : List α := List.insertionSort (· ≤ ·) l

/-- Model of `np.max(l)` (last element of the ascending sort). -/
def npMax (l : List α) : α := (sortedList l).getLastD 0

/-- Model of `np.min(l)` (head of the ascending sort). -/
def npMin (l : List α) : α := (sortedList l).headD 0

/-- Model of `np.median(l)`: middle element of the sort for odd length,
mean of the two middle elements for even length. -/
def npMedian (l : List α) : α :=
  let s := sortedList l
  if l.length % 2 = 1 then s.getD (l.length / 2) 0
  else (s.getD (l.length / 2 - 1) 0 + s.getD (l.length / 2) 0) / 2

/-- Model of `np.percentile(l, q)` for an integer percentage `q` (numpy's
default linear interpolation: rank `(n-1)*q/100`, interpolating between the
neighbouring order statistics). -/
def npPercentile (l : List α) (q : ℕ) : α :=
  let s := sortedList l
  let rankNum : ℕ := (l.length - 1) * q
  let i : ℕ := rankNum / 100
  let g : α := (rankNum : α) / 100 - (i : α)
  s.getD i 0 + g * (s.getD (i + 1) (s.getD i 0) - s.getD i 0)

/-- Population variance `np.var` / the square of `np.std` (ddof = 0). -/
def npVarP (l : List α) : α := npMean (l.map (fun x => (x - npMean l) ^ 2))

/-! ## BayesianAggregator (`src/backend/analysis/bayesian_aggregator.py`)

The aggregator is modelled generically over a linear ordered field so that
the same definitions serve the exact-rational claims (`ℚ`) and the
real-valued dictionary used by `EnsembleManager` (`ℝ`).  The modelled calls
use the constructor defaults `prior_strength = 1.0`,
`outlier_threshold = 2.5`, and the historical-performance table is passed
explicitly (an empty table `fun _ => none` for a fresh instance). -/

/-- Model of `BayesianAggregator._detect_outliers` (lines 96-126): with at
least 3 samples, flag samples whose MAD-based modified z-score
`0.6745 * (x - median) / MAD` exceeds the threshold in absolute value;
if the MAD is zero fall back to the 1.5×IQR rule; with fewer than 3 samples
flag nothing. -/
def detectOutliers (threshold : α) (probabilities : List α) : List Bool :=
  if probabilities.length < 3 then List.replicate probabilities.length false
  else
    let med := npMedian probabilities
    let mad := npMedian (probabilities.map (fun p => |p - med|))
    if mad > 0 then
      probabilities.map (fun p => decide (|(6745 : α) / 10000 * (p - med) / mad| > threshold))
    else
      let q1 := npPercentile probabilities 25
      let q3 := npPercentile probabilities 75
      let iqr := q3 - q1
      if iqr > 0 then
        probabilities.map (fun p => decide (p < q1 - 3 / 2 * iqr ∨ p > q3 + 3 / 2 * iqr))
      else List.replicate probabilities.length false

/-- Step 1 of `_calculate_expert_weights` (lines 147-151): start from all-ones
weights and multiply elementwise by the confidences. -/
def confidenceWeights (n : ℕ) (confidences : List α) : List α :=
  List.zipWith (· * ·) (List.replicate n 1) confidences

/-- Step 2 of `_calculate_expert_weights` (line 154): multiply the weight of
every flagged outlier by the fixed factor `0.1`. -/
def outlierPenalty (ws : List α) (mask : List Bool) : List α :=
  List.zipWith (fun w o => if o then w * (1 / 10) else w) ws mask

/-- Step 3 of `_calculate_expert_weights` (lines 157-162): multiply by the
historical-accuracy factor `1/(1+avg_error)` for experts with tracked
history. -/
def historicalWeights (ws : List α) (ids : List String) (hist : String → Option α) : List α :=
  List.zipWith (fun w id =>
    match hist id with
    | some e => w * (1 / (1 + e))
    | none => w) ws ids

/-- One consensus-agreement iteration of `_calculate_expert_weights`
(lines 165-169): recompute the weighted mean and multiply every weight by
`1/(1 + 5*|p - weighted_mean|)`. -/
def agreementStep (probs ws : List α) : List α :=
  let m := npAverage probs ws
  List.zipWith (fun w p => w * (1 / (1 + |p - m| * 5))) ws probs

/-- The three fixed agreement iterations of step 4. -/
def agreementWeights (probs ws : List α) : List α :=
  agreementStep probs (agreementStep probs (agreementStep probs ws))

/-- Final normalization of `_calculate_expert_weights` (line 172). -/
def normalizeWeights (ws : List α) : List α := ws.map (· / ws.sum)

/-- Model of `BayesianAggregator._calculate_expert_weights` (lines 128-174). -/
def calculateExpertWeights (probs : List α) (ids : List String) (confs : List α)
    (mask : List Bool) (hist : String → Option α) : List α :=
  normalizeWeights (agreementWeights probs
    (historicalWeights (outlierPenalty (confidenceWeights probs.length confs) mask) ids hist))

/-- The posterior returned by `_bayesian_pool` (lines 176-225).  `mean` and
`variance` are the exact Beta(α,β) moments read off by
`posterior_dist.mean()` / `.var()`; the 2.5%/97.5% quantiles (`lower`,
`upper`) have no closed form and are determined by `alpha`/`beta`. -/
structure BetaPosterior (α : Type) where
  mean : α
  variance : α
  alpha : α
  beta : α

/-- Model of `BayesianAggregator._bayesian_pool`: each probability scaled by
its weight and the virtual sample size 10 updates a Beta(prior, prior)
prior. -/
def bayesianPool (priorStrength : α) (probs ws : List α) : BetaPosterior α :=
  let alphaPost := priorStrength + (List.zipWith (fun p w => p * w * 10) probs ws).sum
  let betaPost := priorStrength + (List.zipWith (fun p w => (1 - p) * w * 10) probs ws).sum
  { mean := alphaPost / (alphaPost + betaPost)
    variance := alphaPost * betaPost / ((alphaPost + betaPost) ^ 2 * (alphaPost + betaPost + 1))
    alpha := alphaPost
    beta := betaPost }

/-- Default expert identifiers generated by `aggregate_forecasts` (line 56). -/
def defaultExpertIds (n : ℕ) : List String :=
  (List.range n).map (fun i => "expert_" ++ toString i)

/-- The `aggregated_probability` value returned by
`BayesianAggregator.aggregate_forecasts` (lines 31-94) for a call with only
the forecasts supplied (default expert ids, default all-ones confidences,
fresh instance, default constructor arguments): probabilities are the
forecasts scaled to 0-1, outliers are detected, expert weights are computed
and the Bayesian pool's posterior mean is scaled back to 0-100. -/
def aggregatedProbability (forecasts : List α) : α :=
  let probs := forecasts.map (· / 100)
  let mask := detectOutliers (5 / 2) probs
  let ws := calculateExpertWeights probs (defaultExpertIds forecasts.length)
    (List.replicate forecasts.length 1) mask (fun _ => none)
  (bayesianPool 1 probs ws).mean * 100

/-! ## ConsistencyScorer (`src/backend/analysis/consistency_scorer.py`)

`np.std` involves a square root, so the scorer is modelled over `ℝ`. -/

/-- Model of `np.std(l)` (population standard deviation, ddof = 0). -/
noncomputable def npStd (l : List ℝ) : ℝ := Real.sqrt (npVarP l)

/-- Bin counts of `np.histogram(l, bins=np.linspace(0, 100, 11))`: ten bins
`[10i, 10(i+1))`, the last bin `[90, 100]` closed; values outside `[0,100]`
are not counted. -/
noncomputable def histogram10 (samples : List ℝ) : List ℕ :=
  (List.range 10).map (fun i =>
    samples.countP (fun x =>
      decide ((10 * i : ℝ) ≤ x) &&
        (if i = 9 then decide (x ≤ 100) else decide (x < 10 * ((i : ℝ) + 1)))))

/-- Model of `scipy.stats.entropy(pk)`: normalize `pk` to sum one, then return
`-Σ p log p`. -/
noncomputable def scipyEntropy (pk : List ℝ) : ℝ :=
  -(pk.map (fun p => p / pk.sum * Real.log (p / pk.sum))).sum

/-- The `"direct"` branch of `calculate_consistency` (lines 43-51): inverse
coefficient of variation, degenerating on a nonpositive mean. -/
noncomputable def directScore (samples : List ℝ) : ℝ :=
  if npMean samples > 0 then 1 / (1 + npStd samples / npMean samples)
  else if npStd samples = 0 then 1 else 0

/-- The `"indirect"` branch of `calculate_consistency` (lines 53-63): one
minus the normalized entropy of the 10-bin histogram.  The source guard
`max_entropy > 0` always holds since `max_entropy = log 10`. -/
noncomputable def indirectScore (samples : List ℝ) : ℝ :=
  1 - scipyEntropy ((histogram10 samples).map
      (fun h => (h : ℝ) / ((histogram10 samples).sum : ℝ) + 1 / 10 ^ 10)) / Real.log 10

/-- The `"ensemble"` branch of `calculate_consistency` (lines 65-80): the
equal blend of the inverse-stdev, inverse-range and inverse-IQR scores. -/
noncomputable def ensembleScore (samples : List ℝ) : ℝ :=
  (1 / (1 + npStd samples / 10) + (1 - (npMax samples - npMin samples) / 100) +
    1 / (1 + (npPercentile samples 75 - npPercentile samples 25) / 20)) / 3

/-- The fallback branch of `calculate_consistency` (lines 82-84). -/
noncomputable def defaultScore (samples : List ℝ) : ℝ := 1 / (1 + npStd samples)

/-- Model of `ConsistencyScorer.calculate_consistency` (lines 28-86) with the
scorer's `method` as explicit argument (constructor default `"ensemble"`).
Fewer than 2 samples score `1.0`; otherwise the method-specific score is
clipped to `[0,1]`. -/
noncomputable def calculateConsistency (method : String) (samples : List ℝ) : ℝ :=
  if samples.length < 2 then 1
  else npClip
    (if method = "direct" then directScore samples
      else if method = "indirect" then indirectScore samples
      else if method = "ensemble" then ensembleScore samples
      else defaultScore samples) 0 1

/-- Model of `ConsistencyScorer.calculate_weighted_aggregate` (lines 151-185).
The source iterates over the `model_predictions` dictionary in insertion
order, which the association list preserves: sources with an empty
prediction list are skipped, every other source contributes its mean
prediction with weight `consistency²`, and if the total weight is zero the
result falls back to the mean of the flattened sample list (or `50.0` when
that list is empty too). -/
noncomputable def weightedAggregateSums (method : String)
    (modelPredictions : List (String × List ℝ)) : ℝ × ℝ :=
  modelPredictions.foldl (fun acc mp =>
    if mp.2 = [] then acc
    else
      (acc.1 + calculateConsistency method mp.2 ^ 2 * npMean mp.2,
        acc.2 + calculateConsistency method mp.2 ^ 2)) (0, 0)

/-- The weighted aggregate itself (see `weightedAggregateSums`). -/
noncomputable def calculateWeightedAggregate (method : String)
    (modelPredictions : List (String × List ℝ)) : ℝ :=
  let sums := weightedAggregateSums method modelPredictions
  if sums.2 > 0 then sums.1 / sums.2
  else
    let allPreds := modelPredictions.flatMap (·.2)
    if allPreds ≠ [] then npMean allPreds else 50

/-! ## The aggregator's uncertainty score and result dictionary (over `ℝ`) -/

/-- The weighted pairwise disagreement terms of `_calculate_uncertainty`
(lines 254-258): for every pair `i < j`,  `|p_i - p_j| * w_i * w_j`. -/
def pairwiseTerms : List (ℝ × ℝ) → List ℝ
  | [] => []
  | (p, w) :: rest => (rest.map (fun qu => |p - qu.1| * w * qu.2)) ++ pairwiseTerms rest

/-- Model of `BayesianAggregator._calculate_uncertainty` (lines 227-265):
the mean of weighted prediction variance, normalized weight entropy, and
average pairwise disagreement, clipped to `[0,1]`. -/
noncomputable def calculateUncertainty (probs ws : List ℝ) : ℝ :=
  let weightedMean := npAverage probs ws
  let variance := npAverage (probs.map (fun p => (p - weightedMean) ^ 2)) ws
  let weightEntropy := -(ws.map (fun w => w * Real.log (w + 1 / 10 ^ 10))).sum
  let maxEntropy := Real.log ws.length
  let normalizedEntropy := if maxEntropy > 0 then weightEntropy / maxEntropy else 0
  let terms := pairwiseTerms (probs.zip ws)
  let avgDisagreement := if terms = [] then 0 else npMean terms
  npClip ((variance + normalizedEntropy + avgDisagreement) / 3) 0 1

/-- Value stored under one key of the dictionary returned by
`aggregate_forecasts`.  The `confidence_interval` entry holds the posterior
`alpha`/`beta` parameters: the stored floats are the 2.5% and 97.5%
quantiles of `Beta(alpha, beta)` (times 100), which have no closed form. -/
inductive AggEntry where
  | num (v : ℝ)
  | betaCI (a b : ℝ)
  | wmap (w : List (String × ℝ))
  | cnt (n : ℕ)
  | str (s : String)

/-- Model of the dictionary returned by
`BayesianAggregator.aggregate_forecasts` (lines 48-49 and 83-94): the
`error` dictionary for an empty forecast list, otherwise exactly the seven
keys built at lines 83-94. -/
noncomputable def aggregateForecastsDict (forecasts : List ℝ) (ids : List String)
    (confs : List ℝ) (hist : String → Option ℝ) : List (String × AggEntry) :=
  if forecasts = [] then [("error", .str "No forecasts provided")]
  else
    let probs := forecasts.map (· / 100)
    let mask := detectOutliers (5 / 2) probs
    let ws := calculateExpertWeights probs ids confs mask hist
    let pool := bayesianPool 1 probs ws
    [("aggregated_probability", .num (pool.mean * 100)),
      ("confidence_interval", .betaCI pool.alpha pool.beta),
      ("uncertainty", .num (calculateUncertainty probs ws)),
      ("expert_weights", .wmap (ids.zip ws)),
      ("outliers_detected", .cnt (mask.count true)),
      ("method", .str "robust_bayesian"),
      ("posterior_variance", .num pool.variance)]

/-! ## BatchCalibrator (`src/backend/services/analysis/calibration.py`)

Temperature scaling uses `scipy.special.logit`/`expit`, modelled with
`Real.log`/`Real.exp`.  The sklearn models fitted by the Platt/isotonic
variants are external library state, modelled as an abstract optional map
`calModel : Option (ℝ → ℝ)` applied in the corresponding branch. -/

/-- Model of `scipy.special.logit`. -/
noncomputable def logitR (p : ℝ) : ℝ := Real.log (p / (1 - p))

/-- Model of `scipy.special.expit` (the logistic sigmoid). -/
noncomputable def expitR (x : ℝ) : ℝ := 1 / (1 + Real.exp (-x))

/-- The mutable state of a `BatchCalibrator`: construction method, fitted
temperature, abstract fitted Platt/isotonic model, and the fitted flag. -/
structure CalibratorState where
  method : String
  temperature : ℝ
  calModel : Option (ℝ → ℝ)
  fitted : Bool

/-- Chunks of size `n` of a list (helper for `_create_batches`). -/
def listChunks (n : ℕ) : List ℝ → List (List ℝ)
  | [] => []
  | x :: xs =>
    if n = 0 then [x :: xs]
    else (x :: xs).take n :: listChunks n ((x :: xs).drop n)
termination_by l => l.length
decreasing_by simp [List.length_drop]; omega

/-- Model of `BatchCalibrator._create_batches` (lines 188-207): sort, then
split into batches of 10. -/
noncomputable def createBatches (probabilities : List ℝ) : List (List ℝ) :=
  listChunks 10 (sortedList probabilities)

/-- Model of the temperature estimate of `_fit_unsupervised` (lines 86-97):
average within-batch variance drives the temperature, clamped to
`[0.5, 2.0]`; without any batch of more than one element the temperature
stays `1.0`. -/
noncomputable def fitUnsupervisedTemperature (probabilities : List ℝ) : ℝ :=
  let batchVariances := (createBatches probabilities).filterMap
    (fun b => if b.length > 1 then some (npVarP b) else none)
  if batchVariances ≠ [] then
    max (1 / 2) (min 2 (1 + (npMean batchVariances - 1 / 100) * 10))
  else 1

/-- Model of `BatchCalibrator.fit` for the unsupervised case
(`labels = None`, the case reached from `calibrate_batch`): the temperature
method re-estimates the temperature, the Platt/isotonic methods delegate
their sklearn fitting to the abstract `externalFit`; in every case the
fitted flag is set. -/
noncomputable def calibratorFit (externalFit : List ℝ → Option (ℝ → ℝ))
    (c : CalibratorState) (probabilities : List ℝ) : CalibratorState :=
  if c.method = "temperature" then
    { c with temperature := fitUnsupervisedTemperature probabilities, fitted := true }
  else
    { c with calModel := externalFit probabilities, fitted := true }

/-- Model of `BatchCalibrator.calibrate` (lines 133-170).  An unfitted
calibrator returns its input unchanged; otherwise the input is scaled to
0-1, transformed according to the method (temperature `1.0` short-circuits
to the identity), scaled back and clipped to `[0,100]`. -/
noncomputable def calibrate (c : CalibratorState) (probability : ℝ) : ℝ :=
  if c.fitted = false then probability
  else
    let prob01 := probability / 100
    let calibrated :=
      if c.method = "temperature" then
        if c.temperature = 1 then prob01
        else expitR (logitR (npClip prob01 (1 / 10 ^ 7) (1 - 1 / 10 ^ 7)) / c.temperature)
      else if (c.method = "platt" ∨ c.method = "isotonic") ∧ c.calModel.isSome then
        match c.calModel with
        | some f => f prob01
        | none => prob01
      else prob01
    npClip (calibrated * 100) 0 100

/-- Model of `BatchCalibrator.calibrate_batch` (lines 172-186): fit first if
not yet fitted, then calibrate each probability. -/
noncomputable def calibrateBatch (externalFit : List ℝ → Option (ℝ → ℝ))
    (c : CalibratorState) (probabilities : List ℝ) : List ℝ :=
  let c' := if c.fitted = false then calibratorFit externalFit c probabilities else c
  probabilities.map (calibrate c')

/-! ## A backtracking regular-expression matcher

`OpenRouterClient._extract_probability`
(`src/backend/services/core/api_client.py`, lines 317-560) drives an
ordered chain of `re.search`/`re.findall` calls.  The matcher below
implements exactly the constructs those patterns use, with Python's
backtracking preference order (leftmost position, alternatives left to
right, greedy/lazy repetition); `IGNORECASE` is compiled into the pattern
literals and `$` implements the `MULTILINE` flag used by the source. -/

/-- Regular-expression syntax for the constructs used by the Python patterns. -/
inductive RE where
  | eps : RE
  | lit : Char → RE
  | cls : List Char → RE
  | digit : RE
  | space : RE
  | dotAny : RE
  | wordB : RE
  | eol : RE
  | seq : RE → RE → RE
  | alt : RE → RE → RE
  | star : RE → Bool → RE
  | group : RE → RE

/-- Python's `\s` (ASCII whitespace as used by the source's patterns). -/
def pySpace (c : Char) : Bool :=
  c = ' ' ∨ c = '\t' ∨ c = '\n' ∨ c = '\r' ∨ c = '\x0b' ∨ c = '\x0c'

/-- Python's word characters (for `\b`). -/
def pyWord (c : Char) : Bool := c.isAlphanum ∨ c = '_'

/-- A matcher state: remaining input, the previous character (for `\b`),
and the capture of the single capturing group once matched. -/
structure MState where
  rest : List Char
  prev : Option Char
  cap : Option (List Char)
deriving DecidableEq

/-- Run a regular expression on a state, producing all resulting states in
Python's backtracking preference order.  The fuel argument bounds the
recursion; `reFuel` below always suffices because every repetition body
consumes at least one character (enforced by the length guard). -/
def mrun (fuel : ℕ) (r : RE) (st : MState) : List MState :=
  match fuel with
  | 0 => []
  | fuel + 1 =>
    match r with
    | .eps => [st]
    | .lit c =>
      match st.rest with
      | [] => []
      | a :: as => if a = c then [⟨as, some a, st.cap⟩] else []
    | .cls cs =>
      match st.rest with
      | [] => []
      | a :: as => if cs.contains a then [⟨as, some a, st.cap⟩] else []
    | .digit =>
      match st.rest with
      | [] => []
      | a :: as => if a.isDigit then [⟨as, some a, st.cap⟩] else []
    | .space =>
      match st.rest with
      | [] => []
      | a :: as => if pySpace a then [⟨as, some a, st.cap⟩] else []
    | .dotAny =>
      match st.rest with
      | [] => []
      | a :: as => if a ≠ '\n' then [⟨as, some a, st.cap⟩] else []
    | .wordB =>
      let left := match st.prev with | none => false | some c => pyWord c
      let right := match st.rest with | [] => false | a :: _ => pyWord a
      if left ≠ right then [st] else []
    | .eol =>
      match st.rest with
      | [] => [st]
      | a :: _ => if a = '\n' then [st] else []
    | .seq a b => (mrun fuel a st).flatMap (fun st' => mrun fuel b st')
    | .alt a b => mrun fuel a st ++ mrun fuel b st
    | .star r lazy =>
      let more := (mrun fuel r st).flatMap (fun st' =>
        if st'.rest.length < st.rest.length then mrun fuel (.star r lazy) st' else [])
      if lazy then st :: more else more ++ [st]
    | .group r =>
      (mrun fuel r st).map (fun st' =>
        { st' with cap := some (st.rest.take (st.rest.length - st'.rest.length)) })

/-- Syntactic size of a regular expression (for the fuel bound). -/
def RE.size : RE → ℕ
  | .seq a b => a.size + b.size + 1
  | .alt a b => a.size + b.size + 1
  | .star r _ => r.size + 1
  | .group r => r.size + 1
  | _ => 1

/-- Sufficient fuel for `mrun` on input `s`. -/
def reFuel (r : RE) (s : List Char) : ℕ := (r.size + 2) * (s.length + 2) + 1

/-- All start states of `s`, leftmost first, with the preceding character. -/
def startStates (s : List Char) : List MState :=
  let rec go (prev : Option Char) (rest : List Char) : List MState :=
    match rest with
    | [] => [⟨[], prev, none⟩]
    | a :: as => ⟨a :: as, prev, none⟩ :: go (some a) as
  go none s

/-- Model of `re.search`: first match (leftmost position, backtracking
order), returning the captured group and the input remaining after the
match. -/
def reSearchEnd (r : RE) (s : List Char) : Option (List Char × List Char) :=
  let rec go : List MState → Option (List Char × List Char)
    | [] => none
    | st :: sts =>
      match mrun (reFuel r s) r st with
      | [] => go sts
      | st' :: _ => some (st'.cap.getD [], st'.rest)
  go (startStates s)

/-- The captured group of the first match, if any (`match.group(1)`). -/
def reSearch (r : RE) (s : List Char) : Option (List Char) :=
  (reSearchEnd r s).map Prod.fst

/-- Model of `re.findall` with a single capturing group: non-overlapping
matches scanned left to right.  (Every pattern the source passes to
`findall` matches at least one character, so the empty-match guards are
never exercised.) -/
def reFindall (r : RE) (s : List Char) : List (List Char) :=
  let rec go (fuel : ℕ) (s : List Char) : List (List Char) :=
    match fuel with
    | 0 => []
    | fuel + 1 =>
      match reSearchEnd r s with
      | none => []
      | some (cap, rest) =>
        if rest.length < s.length then cap :: go fuel rest
        else if rest.length = 0 then [cap]
        else cap :: go fuel rest.tail
  go (s.length + 1) s

/-! ### Pattern construction helpers -/

/-- Sequence a list of regular expressions. -/
def cat : List RE → RE
  | [] => .eps
  | [r] => r
  | r :: rs => .seq r (cat rs)

/-- A single character compiled under `IGNORECASE`. -/
def ci (c : Char) : RE := if c.isAlpha then .cls [c.toLower, c.toUpper] else .lit c

/-- A literal string compiled under `IGNORECASE`. -/
def lits (s : String) : RE := cat (s.data.map ci)

/-- `\d+` -/
def digitsRE : RE := .seq .digit (.star .digit false)

/-- Greedy `(?: r )?`. -/
def quesG (r : RE) : RE := .alt r .eps

/-- The number pattern of every rule: `\d+(?:\.\d+)?`. -/
def numRE : RE := .seq digitsRE (quesG (.seq (.lit '.') digitsRE))

/-- `\s*` -/
def sp0 : RE := .star .space false

/-- `\s+` -/
def sp1 : RE := .seq .space sp0

/-- Lazy `.*?`. -/
def lazyDot : RE := .star .dotAny true

/-- The capturing number group `(\d+(?:\.\d+)?)`. -/
def numG : RE := .group numRE

/-- `%` -/
def pctRE : RE := .lit '%'

/-! ### The pattern literals of `_extract_probability`, in source order -/

/-- `hauptprognose_patterns` (lines 335-340). -/
def hauptprognosePatterns : List RE :=
  [cat [lits "HAUPTPROGNOSE:", sp0, numG, sp0, pctRE],
    cat [lits "**HAUPTPROGNOSE:", sp0, numG, sp0, lits "%**"],
    cat [lits "HAUPTPROGNOSE:", sp0, lits "**", numG, sp0, lits "%**"],
    cat [lits "HAUPTPROGNOSE:", sp0, numG]]

/-- `prognose_patterns` (lines 353-358). -/
def prognosePatterns : List RE :=
  [cat [lits "PROGNOSE:", sp0, numG, sp0, pctRE],
    cat [lits "**PROGNOSE:", sp0, numG, sp0, lits "%**"],
    cat [lits "PROGNOSE:", sp0, lits "**", numG, sp0, lits "%**"],
    cat [lits "PROGNOSE:", sp0, numG]]

/-- `final_prob_patterns` (lines 369-373), searched with `findall` under
`MULTILINE`. -/
def finalProbPatterns : List RE :=
  [cat [lits "Final_Probability", sp0, .lit '=', sp0, numG],
    cat [lits "Final_Probability", sp0, .lit '=', lazyDot, numG, sp0, pctRE],
    cat [.lit '=', sp0, numG, sp0, quesG pctRE, .eol]]

/-- `deepseek_patterns` (lines 389-394). -/
def deepseekPatterns : List RE :=
  [cat [lits "Therefore", quesG (.lit ','), sp1, lits "the", sp1, lits "probability",
      sp1, lits "is", sp1, numG, sp0, pctRE],
    cat [lits "I", sp1, lits "estimate", sp1, quesG (cat [lits "the", sp1, lits "probability", sp1]),
      quesG (cat [lits "to", sp1, lits "be", sp1]), numG, sp0, pctRE],
    cat [lits "My", sp1, lits "assessment:", sp0, numG, sp0, pctRE],
    cat [lits "Estimated", sp1, lits "probability:", sp0, numG, sp0, pctRE]]

/-- `qwen_patterns` (lines 405-410). -/
def qwenPatterns : List RE :=
  [cat [lits "My", sp1, lits "final", sp1, lits "estimate:", sp0, numG, sp0, pctRE],
    cat [lits "I", sp1, lits "conclude", sp1, quesG (cat [lits "with", sp1]),
      quesG (cat [lits "a", sp1]), numG, sp0, pctRE],
    cat [lits "Overall", sp1, lits "probability:", sp0, numG, sp0, pctRE],
    cat [lits "Assessment:", sp0, numG, sp0, pctRE]]

/-- `json_patterns` (lines 420-424). -/
def jsonPatterns : List RE :=
  [cat [.lit '\x7b', lits "\"probability\":", sp0, numG, .lit '\x7d'],
    cat [lits "\"probability\":", sp0, quesG (.lit '"'), numG, quesG (.lit '"'), quesG pctRE],
    cat [lits "probability:", sp0, numG, sp0, quesG pctRE]]

/-- `forecast_patterns` keyword list (lines 434-447). -/
def forecastKeywords : List String :=
  ["prognose:", "forecast:", "prediction:", "probability:", "wahrscheinlichkeit:",
    "final probability:", "ensemble probability:", "result:", "answer:", "conclusion:",
    "estimate:", "assessment:"]

/-- `percentage_patterns` (lines 500-520), searched with `findall`; the last
match of the first nonempty pattern is returned without a bounds check. -/
def percentagePatterns : List RE :=
  [cat [numG, sp0, pctRE],
    cat [numG, sp0, lits "percent"],
    cat [lits "probability", sp0, quesG (.alt (lits "of") (.alt (lits "is") (.lit ':'))),
      sp0, numG, sp0, pctRE],
    cat [numG, sp0, pctRE, sp0, lits "probability"],
    cat [lits "final", lazyDot, numG, sp0, pctRE],
    cat [lits "answer", lazyDot, numG, sp0, pctRE],
    cat [lits "final_probability", lazyDot, numG, sp0, pctRE],
    cat [lits "Final_Probability", lazyDot, numG],
    cat [.lit '=', sp0, numG, sp0, pctRE],
    cat [lits "therefore", lazyDot, numG, sp0, pctRE],
    cat [lits "conclusion", lazyDot, numG, sp0, pctRE],
    cat [lits "estimate", lazyDot, numG, sp0, pctRE],
    cat [lits "assess", lazyDot, numG, sp0, pctRE],
    cat [lits "likely", lazyDot, numG, sp0, pctRE],
    cat [lits "around", sp0, numG, sp0, pctRE],
    cat [lits "approximately", sp0, numG, sp0, pctRE],
    cat [lits "roughly", sp0, numG, sp0, pctRE],
    cat [lits "my", sp1, quesG (cat [lits "final", sp1]),
      .alt (lits "forecast") (.alt (lits "prediction") (lits "estimate")), sp1, lits "is",
      sp1, numG, sp0, pctRE],
    cat [lits "i", sp1, quesG (cat [lits "would", sp1]),
      .alt (lits "forecast") (.alt (lits "predict") (lits "estimate")), sp1, numG, sp0, pctRE]]

/-- `formula_patterns` (lines 530-536), searched with `findall` under
`MULTILINE`. -/
def formulaPatterns : List RE :=
  [cat [lits "Final_Probability", sp0, .lit '=', lazyDot, numG],
    cat [.lit '(', sp0, numRE, sp0, .lit '×', lazyDot, .lit ')', sp0, .lit '/', sp0,
      lits "100", sp0, .lit '=', sp0, numG],
    cat [.lit '=', sp0, numG, sp0, quesG pctRE, .eol],
    cat [lits "Antwort:", sp0, numG, sp0, pctRE],
    cat [lits "Ergebnis:", sp0, numG, sp0, pctRE]]

/-- The last-resort bare-number pattern (line 551): `\b(\d+(?:\.\d+)?)\b`. -/
def lastResortPat : RE := cat [.wordB, numG, .wordB]

/-! ### Parsing matched number strings (`float(...)` on a `\d+(?:\.\d+)?`
match) -/

/-- Split a digit string at the first `.` into integer and fractional parts. -/
def splitAtDot : List Char → List Char × List Char
  | [] => ([], [])
  | c :: rest =>
    if c = '.' then ([], rest)
    else
      let p := splitAtDot rest
      (c :: p.1, p.2)

/-- Decimal digit-string value (as a natural number). -/
def parseDigitsN (cs : List Char) : ℕ :=
  cs.foldl (fun a c => a * 10 + (c.toNat - '0'.toNat)) 0

/-- Value of `float(m)` for a match `m` of `\d+(?:\.\d+)?`. -/
def parseFloatQ (cs : List Char) : ℚ :=
  ((parseDigitsN (splitAtDot cs).1 : ℚ)) + (parseDigitsN (splitAtDot cs).2 : ℚ) / 10 ^ (splitAtDot cs).2.length

/-! ### The extraction rule chain -/

/-- A `for pattern in patterns: re.search` loop whose body returns the
matched value only when it lies in `[0,100]` and otherwise falls through to
the next pattern (the shape of the HAUPTPROGNOSE/PROGNOSE/model-specific/
JSON loops). -/
def searchFirstValid (ps : List RE) (s : List Char) : Option ℚ :=
  match ps with
  | [] => none
  | p :: rest =>
    match reSearch p s with
    | none => searchFirstValid rest s
    | some capt =>
      let v := parseFloatQ capt
      if 0 ≤ v ∧ v ≤ 100 then some v else searchFirstValid rest s

/-- A `for pattern in patterns: re.findall` loop taking the last match,
returning it only when it lies in `[0,100]` and otherwise falling through
(the shape of the `final_prob_patterns` and `formula_patterns` loops). -/
def findallLastValid (ps : List RE) (s : List Char) : Option ℚ :=
  match ps with
  | [] => none
  | p :: rest =>
    match reFindall p s with
    | [] => findallLastValid rest s
    | m :: ms =>
      let v := parseFloatQ ((m :: ms).getLastD [])
      if 0 ≤ v ∧ v ≤ 100 then some v else findallLastValid rest s

/-- Substring test (`needle in hay` on Python strings). -/
def startsWithSeq : List Char → List Char → Bool
  | _, [] => true
  | [], _ :: _ => false
  | a :: as, b :: bs => a = b && startsWithSeq as bs

/-- Substring containment, Python `in`. -/
def containsSub (hay needle : List Char) : Bool :=
  match hay with
  | [] => needle.isEmpty
  | _ :: t => startsWithSeq hay needle || containsSub t needle

/-- Python `str.lower()` on the character list. -/
def lowerList (cs : List Char) : List Char := cs.map Char.toLower

/-- Python `str.strip()`. -/
def stripPy (cs : List Char) : List Char :=
  ((cs.dropWhile (fun c => pySpace c)).reverse.dropWhile (fun c => pySpace c)).reverse

/-- `line.split(":")[-1]`. -/
def lastColonField (line : List Char) : List Char :=
  (List.splitOn ':' line).getLastD []

/-- The `prob_text` selected for a keyword-bearing line (lines 456-465):
the line itself when it contains `%` (after the last colon when it has
one), else the next or next-but-one line when that contains `%`. -/
def lineCandidate (lines : List (List Char)) (i : ℕ) (line : List Char) : Option (List Char) :=
  if line.contains '%' then
    some (if line.contains ':' then stripPy (lastColonField line) else stripPy line)
  else if i + 1 < lines.length ∧ (lines.getD (i + 1) []).contains '%' then
    some (stripPy (lines.getD (i + 1) []))
  else if i + 2 < lines.length ∧ (lines.getD (i + 2) []).contains '%' then
    some (stripPy (lines.getD (i + 2) []))
  else none

/-- Lines 474-496: after stripping `%` signs, a range `a-b` yields the
midpoint of the first two numbers (no bounds check); otherwise a single
number is scaled by 100 when it looks like a 0-1 decimal, or returned as-is
when within `[0,100]`. -/
def probTextNumberValue (pt2 : List Char) : Option ℚ :=
  if pt2.contains '-' then
    match reFindall numRE pt2 with
    | n0 :: n1 :: _ => some ((parseFloatQ n0 + parseFloatQ n1) / 2)
    | _ =>
      match reSearch numRE pt2 with
      | none => none
      | some capt =>
        let v := parseFloatQ capt
        if 0 < v ∧ v ≤ 1 ∧ ¬pt2.contains '%' then some (v * 100)
        else if 0 ≤ v ∧ v ≤ 100 then some v
        else none
  else
    match reSearch numRE pt2 with
    | none => none
    | some capt =>
      let v := parseFloatQ capt
      if 0 < v ∧ v ≤ 1 ∧ ¬pt2.contains '%' then some (v * 100)
      else if 0 ≤ v ∧ v ≤ 100 then some v
      else none

/-- Lines 467-496: the value extracted from one candidate `prob_text` — a
percentage match validated against `[0,100]`, else the number handling of
`probTextNumberValue` on the `%`-stripped text. -/
def processProbText (pt : List Char) : Option ℚ :=
  let fallback := probTextNumberValue (stripPy (pt.filter (fun c => c ≠ '%')))
  match reSearch (cat [numG, sp0, pctRE]) pt with
  | some capt =>
    let v := parseFloatQ capt
    if 0 ≤ v ∧ v ≤ 100 then some v else fallback
  | none => fallback

/-- First `some` produced by a function over a list (Python's first
`return` out of a loop). -/
def firstSome {β γ : Type} (f : β → Option γ) : List β → Option γ
  | [] => none
  | b :: bs =>
    match f b with
    | some v => some v
    | none => firstSome f bs

/-- The keyword-section rule (lines 449-496): for each keyword contained in
the lowercased content, scan the lines in order; the first keyword-bearing
line that yields a value returns it. -/
def forecastSectionRule (content : List Char) : Option ℚ :=
  let contentLower := lowerList content
  let lines := List.splitOn '\n' content
  firstSome (fun kw =>
    if containsSub contentLower kw.data then
      firstSome (fun iLine =>
        if containsSub (lowerList iLine.2) kw.data then
          match lineCandidate lines iLine.1 iLine.2 with
          | some pt => processProbText pt
          | none => none
        else none) lines.enum
    else none) forecastKeywords

/-- The fallback percentage rule (lines 498-526): the last `findall` match of
the first pattern with any match, returned *without* a bounds check. -/
def percentageFallback (content : List Char) : Option ℚ :=
  firstSome (fun p =>
    match reFindall p content with
    | [] => none
    | m :: ms => some (parseFloatQ ((m :: ms).getLastD []))) percentagePatterns

/-- First in-range value scanning a list of matches (for the last-resort
backward scan, lines 552-555). -/
def firstInRange : List (List Char) → Option ℚ
  | [] => none
  | m :: ms =>
    let v := parseFloatQ m
    if 0 ≤ v ∧ v ≤ 100 then some v else firstInRange ms

/-- The last-resort rule (lines 548-555): bare numbers in the final 500
characters, scanned from the end backward, first value in `[0,100]`. -/
def lastResortRule (content : List Char) : Option ℚ :=
  let endContent := content.drop (content.length - 500)
  firstInRange (reFindall lastResortPat endContent).reverse

/-- Model of `OpenRouterClient._extract_probability` (lines 317-560): the
full ordered rule chain.  (The surrounding `try/except` never fires in the
modelled operations; the source's duplicate-priority comments are elided.) -/
def extractProbability (content : List Char) (model : List Char) : Option ℚ :=
  if content = [] then none
  else
    match searchFirstValid hauptprognosePatterns content with
    | some v => some v
    | none =>
    match searchFirstValid prognosePatterns content with
    | some v => some v
    | none =>
    match findallLastValid finalProbPatterns content with
    | some v => some v
    | none =>
    match (if containsSub (lowerList model) "deepseek".data then
        searchFirstValid deepseekPatterns content else none) with
    | some v => some v
    | none =>
    match (if containsSub (lowerList model) "qwen".data then
        searchFirstValid qwenPatterns content else none) with
    | some v => some v
    | none =>
    match searchFirstValid jsonPatterns content with
    | some v => some v
    | none =>
    match forecastSectionRule content with
    | some v => some v
    | none =>
    match percentageFallback content with
    | some v => some v
    | none =>
    match findallLastValid formulaPatterns content with
    | some v => some v
    | none => lastResortRule content

/-! ## OpenRouterClient.query_model (`src/backend/services/core/api_client.py`,
lines 59-280)

The HTTP call itself is external: its outcome is an abstract
`ApiOutcome` (a completed response carrying the optional message content, a
timeout, or a raised exception with its message).  Wall-clock fields
(`timestamp`, `response_time`), token-usage counters and `log_probabilities`
are not modelled.  The cache-hit path (lines 83-88) returns a previously
stored record verbatim and is outside this model of a single completed
query. -/

/-- One reply record as assembled by `query_model` / `_run_model_batch`. -/
structure Reply where
  model : String
  iteration : ℕ
  status : String
  content : Option String
  probability : Option ℚ
  error : Option String
deriving DecidableEq

/-- Outcome of the underlying `chat.completions.create` call: a response
with its (possibly null) message content, a timeout, or an exception. -/
inductive ApiOutcome where
  | response (content : Option String)
  | timedOut
  | raised (msg : String)

/-- The safety-refusal phrasings of `rejection_patterns` (lines 164-171). -/
def rejectionPatterns : List String :=
  ["cannot ignore my safety instructions", "must decline this request",
    "attempt to override", "cannot comply with", "against my programming",
    "violates my guidelines"]

/-- The status classification of a raised exception (lines 260-270): rate
limiting, unknown endpoint and malformed request are sniffed from the error
string, everything else is `"error"`. -/
def classifyError (msg : String) : String :=
  if containsSub msg.data "429".data ∨ containsSub (lowerList msg.data) "rate".data ∨
      containsSub (lowerList msg.data) "too many requests".data then "rate_limited"
  else if containsSub msg.data "404".data ∨ containsSub (lowerList msg.data) "not found".data then
    "not_found"
  else if containsSub msg.data "400".data ∨ containsSub (lowerList msg.data) "invalid".data then
    "invalid_model"
  else "error"

/-- The final bounds validation of `query_model` (lines 207-210): an
extracted probability outside `[0,100]` is reset to null. -/
def resetOutOfRange (v? : Option ℚ) : Option ℚ :=
  match v? with
  | some v => if v < 0 ∨ v > 100 then none else some v
  | none => none

/-- The safety-filter check of lines 163-174: any rejection phrasing occurs
in the lowercased content. -/
def isRejectedContent (s : String) : Bool :=
  rejectionPatterns.any (fun p => containsSub (lowerList s.data) p.data)

/-- Model of `query_model` (lines 126-280) for a completed call: empty or
too-short content becomes an `empty_response` record; otherwise the
probability is extracted, reset to null when out of `[0,100]`
(lines 207-210), and the record is marked `rejected` or `success`.
Timeouts and exceptions yield their error records. -/
def queryModel (model : String) (outcome : ApiOutcome) : Reply :=
  match outcome with
  | .timedOut =>
    { model := model, iteration := 0, status := "timeout", content := none,
      probability := none, error := some "Request timeout" }
  | .raised msg =>
    { model := model, iteration := 0, status := classifyError msg, content := none,
      probability := none, error := some msg }
  | .response contentOpt =>
    match contentOpt with
    | none =>
      { model := model, iteration := 0, status := "empty_response", content := none,
        probability := none, error := some "Empty or insufficient response" }
    | some s =>
      if s.data.length < 10 then
        { model := model, iteration := 0, status := "empty_response", content := some s,
          probability := none, error := some "Empty or insufficient response" }
      else
        { model := model, iteration := 0,
          status := if isRejectedContent s then "rejected" else "success",
          content := some s,
          probability := resetOutOfRange (extractProbability s.data model.data),
          error := none }

/-! ## EnsembleManager (`src/backend/core/ensemble_manager.py`)

`_run_model_batch` (lines 246-361) and the per-model loop of
`run_ensemble_forecast` (lines 108-150).  The underlying query capability
is abstracted as a function from (iteration, attempt) to an outcome: a
completed reply record, or a raised exception.  Concurrency is invisible in
the result values: the sequential free-tier path and the
`gather(..., return_exceptions=True)` paid path both produce one outcome
per iteration, in iteration order.  The `dry_run` mock path (random data)
is not modelled. -/

/-- Outcome of one `client.query_model` call as seen by the batch: a reply
record, or an exception that propagated. -/
inductive QueryOutcome where
  | ok (r : Reply)
  | exc (msg : String)

/-- `':free' in model`. -/
def isFreeModel (model : String) : Bool := containsSub model.data ":free".data

/-- Model of `limited_query` (lines 304-325): call the client, retry once on
an empty response from a free-tier model, number the reply with its
iteration and advance the per-model progress task by one; an exception
escapes before the progress update. -/
def limitedQuery (free : Bool) (client : ℕ → ℕ → QueryOutcome) (i : ℕ) :
    QueryOutcome × ℕ :=
  match client i 0 with
  | .exc m => (.exc m, 0)
  | .ok r =>
    if r.status = "empty_response" ∧ free then
      match client i 1 with
      | .exc m => (.exc m, 0)
      | .ok r2 => (.ok { r2 with iteration := i + 1 }, 1)
    else (.ok { r with iteration := i + 1 }, 1)

/-- The exception-to-error-record conversion of lines 344-359. -/
def outcomeToReply (model : String) (i : ℕ) : QueryOutcome → Reply
  | .ok r => r
  | .exc m =>
    { model := model, iteration := i + 1, status := "error", content := none,
      probability := none, error := some m }

/-- Model of `_run_model_batch` (lines 246-361): one converted reply per
iteration, plus the per-model progress count. -/
def runModelBatch (model : String) (client : ℕ → ℕ → QueryOutcome) (iterations : ℕ) :
    List Reply × ℕ :=
  let outcomes := (List.range iterations).map (limitedQuery (isFreeModel model) client)
  ((List.range iterations).map
      (fun i => outcomeToReply model i (limitedQuery (isFreeModel model) client i).1),
    (outcomes.map (·.2)).sum)

/-- Model of the per-model loop of `run_ensemble_forecast` (lines 108-150):
concatenate the batches and advance the overall progress task by
`iterations` after each model (line 136).  (The per-reply metadata tags
`ensemble_id`/`question`/`definition`/`timeframe` added at lines 139-144
are presentation fields and are not modelled.) -/
def runEnsembleForecast (models : List String) (iterations : ℕ)
    (client : String → ℕ → ℕ → QueryOutcome) : List Reply × ℕ :=
  match models with
  | [] => ([], 0)
  | m :: rest =>
    let batch := runModelBatch m (client m) iterations
    let recur := runEnsembleForecast rest iterations client
    (batch.1 ++ recur.1, iterations + recur.2)

/-- The error-family statuses of the Reply taxonomy (spec §7) that a failed
query produces. -/
def errorFamily (s : String) : Prop :=
  s ∈ ["empty_response", "timeout", "rate_limited", "not_found", "invalid_model", "error"]

/-- A query-capability outcome that is a failure: a raised exception, or a
reply carrying an error-family status. -/
def outcomeFails : QueryOutcome → Prop
  | .exc _ => True
  | .ok r => errorFamily r.status

/-! ## The Bayesian step of `EnsembleManager._apply_advanced_algorithms`
(lines 490-519) -/

/-- Python's `bayesian_result.get('aggregated_forecast', default)`
(line 509): the value stored under the key when present, the default
otherwise.  (The relevant keys all carry `.num` floats; the other shapes
never occur under a looked-up numeric key.) -/
noncomputable def dictGetNum (d : List (String × AggEntry)) (k : String) (dflt : ℝ) : ℝ :=
  match List.lookup k d with
  | some (.num v) => v
  | some _ => dflt
  | none => dflt

/-- Model of the `bayesian_prediction` computed at lines 497-509: per-model
mean forecasts (scaled to 0-1) are aggregated by a fresh
`BayesianAggregator` with the consistency scores as confidences, and the
result is read under the key `'aggregated_forecast'` with the unweighted
mean of `all_predictions` (times 100) as the `.get` default. -/
noncomputable def bayesianEnsembleValue (modelPredictions : List (String × List ℝ)) : ℝ :=
  let allPredictions := modelPredictions.map (fun g => npMean g.2 / 100)
  let modelNames := modelPredictions.map (·.1)
  let allWeights := modelPredictions.map (fun g => calculateConsistency "ensemble" g.2)
  let dict := aggregateForecastsDict (allPredictions.map (· * 100)) modelNames allWeights
    (fun _ => none)
  dictGetNum dict "aggregated_forecast" (npMean allPredictions * 100)

/-! ## ForecastAggregator selection policy
(`src/backend/services/analysis/aggregator.py`, lines 363-446) -/

/-- The four method estimates plus metadata consumed by
`_get_recommended_estimate`; `ensemble_of_methods` is filled in by
`get_advanced_aggregation` as the unweighted mean of the four estimates
(lines 411-417); the keys read by `_get_recommended_estimate` are always
present in the dictionaries it receives, so the record carries them
directly. -/
structure AdvancedResults where
  simpleMean : ℚ
  calibratedMean : ℚ
  consistencyWeighted : ℚ
  bayesianAggregated : ℚ
  bayesianUncertainty : ℚ
  ensembleOfMethods : ℚ

/-- The `results` record assembled by `get_advanced_aggregation` from the
four method estimates and the Bayesian uncertainty. -/
def mkAdvancedResults (s c w b unc : ℚ) : AdvancedResults :=
  { simpleMean := s, calibratedMean := c, consistencyWeighted := w,
    bayesianAggregated := b, bayesianUncertainty := unc,
    ensembleOfMethods := npMean [s, c, w, b] }

/-- Model of `ForecastAggregator._get_recommended_estimate` (lines 426-446):
consistency-weighted when ensemble consistency exceeds 0.8, else Bayesian
when the Bayesian uncertainty exceeds 0.5, else the four-method blend. -/
def getRecommendedEstimate (ensembleConsistency : ℚ) (results : AdvancedResults) : ℚ :=
  if ensembleConsistency > 8 / 10 then results.consistencyWeighted
  else if results.bayesianUncertainty > 1 / 2 then results.bayesianAggregated
  else results.ensembleOfMethods

/-! ## Shared lemmas -/

theorem list_sum_map_div {α : Type} [DivisionRing α] (l : List α) (d : α) :
    (l.map (· / d)).sum = l.sum / d := by
  induction l with
  | nil => simp
  | cons x xs ih => simp [ih, add_div]

theorem npMean_map_div (l : List ℝ) (d : ℝ) : npMean (l.map (· / d)) = npMean l / d := by
  unfold npMean
  rw [list_sum_map_div, List.length_map, div_div, div_div, mul_comm]

theorem npClip_idem (x : ℝ) : npClip (npClip x 0 100) 0 100 = npClip x 0 100 := by
  unfold npClip
  have h1 : (0 : ℝ) ≤ min (max x 0) 100 := le_min (le_max_right x 0) (by norm_num)
  rw [max_eq_left h1, min_eq_left (min_le_right (max x 0) 100)]

theorem npClip_of_mem (x : ℝ) (h0 : 0 ≤ x) (h1 : x ≤ 100) : npClip x 0 100 = x := by
  unfold npClip
  rw [max_eq_left h0, min_eq_left h1]

/-! ## C5: the recommended-estimate selection policy -/

/-- C5: the recommended estimate of ForecastAggregator equals the
consistency-weighted estimate when ensemble consistency exceeds 0.8,
else the Bayesian estimate when the Bayesian uncertainty exceeds 0.5,
else the unweighted mean of the four method estimates. -/
theorem recommended_estimate_policy (s c w b unc cons : ℚ) :
    (cons > 8 / 10 →
      getRecommendedEstimate cons (mkAdvancedResults s c w b unc) = w) ∧
    (¬cons > 8 / 10 → unc > 1 / 2 →
      getRecommendedEstimate cons (mkAdvancedResults s c w b unc) = b) ∧
    (¬cons > 8 / 10 → ¬unc > 1 / 2 →
      getRecommendedEstimate cons (mkAdvancedResults s c w b unc) = (s + c + w + b) / 4) := by
  refine ⟨fun h => ?_, fun h1 h2 => ?_, fun h1 h2 => ?_⟩
  · simp [getRecommendedEstimate, mkAdvancedResults, h]
  · simp only [getRecommendedEstimate, mkAdvancedResults, if_neg h1, if_pos h2]
  · simp only [getRecommendedEstimate, mkAdvancedResults, if_neg h1, if_neg h2]
    show npMean [s, c, w, b] = (s + c + w + b) / 4
    simp [npMean]
    ring

/-- Witness for C5 at concrete inputs exercising all three branches. -/
theorem recommended_estimate_policy_witness :
    getRecommendedEstimate (9 / 10) (mkAdvancedResults 1 2 3 4 (3 / 4)) = 3 ∧
    getRecommendedEstimate (1 / 2) (mkAdvancedResults 1 2 3 4 (3 / 4)) = 4 ∧
    getRecommendedEstimate (1 / 2) (mkAdvancedResults 1 2 3 4 (1 / 4)) = 5 / 2 :=
  ⟨(recommended_estimate_policy 1 2 3 4 (3 / 4) (9 / 10)).1 (by norm_num),
    (recommended_estimate_policy 1 2 3 4 (3 / 4) (1 / 2)).2.1 (by norm_num) (by norm_num),
    by
      have := (recommended_estimate_policy 1 2 3 4 (1 / 4) (1 / 2)).2.2
        (by norm_num) (by norm_num)
      rw [this]; norm_num⟩

/-! ## C8: temperature-1 calibration is the identity on [0,100] -/

theorem calibrate_eq_clip (c : CalibratorState) (x : ℝ) (hm : c.method = "temperature")
    (hf : c.fitted = true) (ht : c.temperature = 1) :
    calibrate c x = npClip x 0 100 := by
  unfold calibrate
  rw [hf, hm, ht]
  simp only [if_pos rfl]
  norm_num

/-- C8: with a fitted temperature of 1.0, `calibrate` is the identity on
[0,100], and re-calibrating an already-calibrated batch with the same
fitted temperature reproduces the same output. -/
theorem calibrate_unit_temperature_identity (c : CalibratorState) (p : ℝ) (ps : List ℝ)
    (externalFit : List ℝ → Option (ℝ → ℝ)) (hm : c.method = "temperature")
    (hf : c.fitted = true) (ht : c.temperature = 1) (h0 : 0 ≤ p) (h1 : p ≤ 100) :
    calibrate c p = p ∧
      calibrateBatch externalFit c (calibrateBatch externalFit c ps) =
        calibrateBatch externalFit c ps := by
  constructor
  · rw [calibrate_eq_clip c p hm hf ht, npClip_of_mem p h0 h1]
  · unfold calibrateBatch
    rw [hf]
    simp only [Bool.true_eq_false, if_neg (by simp : ¬False), List.map_map]
    · congr 1
      funext x
      simp only [Function.comp_apply]
      rw [calibrate_eq_clip c x hm hf ht, calibrate_eq_clip c _ hm hf ht, npClip_idem]

/-- Witness for C8 at a concrete calibrator state and probability. -/
theorem calibrate_unit_temperature_identity_witness :
    calibrate ⟨"temperature", 1, none, true⟩ 37 = 37 ∧
      calibrateBatch (fun _ => none) ⟨"temperature", 1, none, true⟩
          (calibrateBatch (fun _ => none) ⟨"temperature", 1, none, true⟩ [30, 160]) =
        calibrateBatch (fun _ => none) ⟨"temperature", 1, none, true⟩ [30, 160] :=
  calibrate_unit_temperature_identity ⟨"temperature", 1, none, true⟩ 37 [30, 160]
    (fun _ => none) rfl rfl rfl (by norm_num) (by norm_num)

/-! ## C4: the `bayesian_ensemble` value falls back to the plain mean -/

theorem lookup_aggregated_forecast_none (fs : List ℝ) (ids : List String)
    (confs : List ℝ) (hist : String → Option ℝ) :
    List.lookup "aggregated_forecast" (aggregateForecastsDict fs ids confs hist) = none := by
  unfold aggregateForecastsDict
  split <;> simp [List.lookup]

/-- C4: the value reported as `bayesian_ensemble` by
`_apply_advanced_algorithms` always equals the unweighted mean of the
per-model mean forecasts, because the Bayesian result is read under the key
`'aggregated_forecast'` while `aggregate_forecasts` only ever returns the
key `'aggregated_probability'`, so the `.get` default is always used. -/
theorem bayesian_ensemble_is_plain_mean (mp : List (String × List ℝ)) :
    bayesianEnsembleValue mp = npMean (mp.map (fun g => npMean g.2)) := by
  simp only [bayesianEnsembleValue, dictGetNum]
  rw [lookup_aggregated_forecast_none]
  have hcomp : mp.map (fun g => npMean g.2 / 100) =
      (mp.map (fun g => npMean g.2)).map (· / 100) := by
    rw [List.map_map]; rfl
  rw [hcomp, npMean_map_div, div_mul_cancel₀]
  norm_num

/-! ## C3: a batch over an always-failing capability -/

theorem runModelBatch_length (model : String) (client : ℕ → ℕ → QueryOutcome)
    (iterations : ℕ) : (runModelBatch model client iterations).1.length = iterations := by
  simp [runModelBatch]

theorem limitedQuery_fails_status (free : Bool) (client : ℕ → ℕ → QueryOutcome) (i : ℕ)
    (hfail : ∀ j a, outcomeFails (client j a)) (model : String) :
    errorFamily (outcomeToReply model i (limitedQuery free client i).1).status := by
  unfold limitedQuery
  have h0 := hfail i 0
  have h1 := hfail i 1
  cases hc0 : client i 0 with
  | exc m => simp [outcomeToReply, errorFamily]
  | ok r =>
    rw [hc0] at h0
    simp only
    split
    · cases hc1 : client i 1 with
      | exc m => simp [outcomeToReply, errorFamily]
      | ok r2 =>
        rw [hc1] at h1
        simpa [outcomeToReply] using h1
    · simpa [outcomeToReply] using h0

theorem runModelBatch_statuses (model : String) (client : ℕ → ℕ → QueryOutcome)
    (iterations : ℕ) (hfail : ∀ j a, outcomeFails (client j a)) :
    ∀ r ∈ (runModelBatch model client iterations).1, errorFamily r.status := by
  intro r hr
  simp only [runModelBatch, List.mem_map, List.mem_range] at hr
  obtain ⟨i, _, rfl⟩ := hr
  exact limitedQuery_fails_status _ client i hfail model

/-- C3: when every call of the underlying query capability fails, the
orchestrator still returns exactly `S*I` reply records, each with an
error-family status, and the overall progress counter reaches `S*I`. -/
theorem failing_capability_batch_shape (models : List String) (iterations : ℕ)
    (client : String → ℕ → ℕ → QueryOutcome)
    (hfail : ∀ m i a, outcomeFails (client m i a)) :
    (runEnsembleForecast models iterations client).1.length = models.length * iterations ∧
      (∀ r ∈ (runEnsembleForecast models iterations client).1, errorFamily r.status) ∧
      (runEnsembleForecast models iterations client).2 = models.length * iterations := by
  induction models with
  | nil => simp [runEnsembleForecast]
  | cons m rest ih =>
    obtain ⟨ihl, ihs, ihp⟩ := ih
    refine ⟨?_, ?_, ?_⟩
    · simp only [runEnsembleForecast, List.length_append, ihl,
        runModelBatch_length, List.length_cons]
      ring
    · intro r hr
      simp only [runEnsembleForecast, List.mem_append] at hr
      rcases hr with hr | hr
      · exact runModelBatch_statuses m (client m) iterations (hfail m) r hr
      · exact ihs r hr
    · simp only [runEnsembleForecast, ihp, List.length_cons]
      ring

/-- Witness for C3: two sources (one free-tier), two iterations, a capability
that always raises. -/
theorem failing_capability_batch_shape_witness :
    (runEnsembleForecast ["a", "b:free"] 2 (fun _ _ _ => .exc "boom")).1.length = 4 ∧
      (∀ r ∈ (runEnsembleForecast ["a", "b:free"] 2 (fun _ _ _ => .exc "boom")).1,
        errorFamily r.status) ∧
      (runEnsembleForecast ["a", "b:free"] 2 (fun _ _ _ => .exc "boom")).2 = 4 :=
  failing_capability_batch_shape ["a", "b:free"] 2 (fun _ _ _ => .exc "boom")
    (fun _ _ _ => trivial)

/-! ## C7: the reply-record invariant of `query_model` -/

theorem classifyError_ne_success (msg : String) : classifyError msg ≠ "success" := by
  unfold classifyError
  split
  · decide
  · split
    · decide
    · split <;> decide

/-- C7: every reply record built by a completed query satisfies the data
model invariant: a `success` status implies non-empty raw text, and a
non-null probability lies in `[0,100]` (out-of-range extractions are reset
to null before the record is built). -/
theorem query_reply_invariant (model : String) (outcome : ApiOutcome) :
    ((queryModel model outcome).status = "success" →
      ∃ s, (queryModel model outcome).content = some s ∧ s.data ≠ []) ∧
    (∀ p, (queryModel model outcome).probability = some p → 0 ≤ p ∧ p ≤ 100) := by
  cases outcome with
  | timedOut => exact ⟨fun h => by simp [queryModel] at h, fun p hp => by
      simp [queryModel] at hp⟩
  | raised msg =>
    refine ⟨fun h => absurd h ?_, fun p hp => by simp [queryModel] at hp⟩
    show classifyError msg ≠ "success"
    exact classifyError_ne_success msg
  | response contentOpt =>
    cases contentOpt with
    | none => exact ⟨fun h => by simp [queryModel] at h, fun p hp => by
        simp [queryModel] at hp⟩
    | some s =>
      by_cases hlen : s.data.length < 10
      · exact ⟨fun h => by simp only [queryModel, if_pos hlen] at h; exact absurd h (by decide),
          fun p hp => by simp only [queryModel, if_pos hlen] at hp; exact absurd hp (by simp)⟩
      · constructor
        · intro _
          refine ⟨s, by simp only [queryModel, if_neg hlen], ?_⟩
          intro hnil
          exact hlen (by simp [hnil])
        · intro p hp
          simp only [queryModel, if_neg hlen] at hp
          unfold resetOutOfRange at hp
          rcases hex : extractProbability s.data model.data with _ | v
          · rw [hex] at hp; simp at hp
          · rw [hex] at hp
            simp only at hp
            by_cases hout : v < 0 ∨ v > 100
            · rw [if_pos hout] at hp; simp at hp
            · rw [if_neg hout] at hp
              push_neg at hout
              obtain rfl : v = p := by injection hp
              exact hout

/-! ## C2: validation behaviour of the extraction rule chain -/

theorem searchFirstValid_range (ps : List RE) (s : List Char) (v : ℚ)
    (h : searchFirstValid ps s = some v) : 0 ≤ v ∧ v ≤ 100 := by
  induction ps with
  | nil => simp [searchFirstValid] at h
  | cons p rest ih =>
    unfold searchFirstValid at h
    rcases hr : reSearch p s with _ | capt
    · rw [hr] at h; exact ih h
    · rw [hr] at h
      simp only at h
      by_cases hb : 0 ≤ parseFloatQ capt ∧ parseFloatQ capt ≤ 100
      · rw [if_pos hb] at h
        obtain rfl : parseFloatQ capt = v := by injection h
        exact hb
      · rw [if_neg hb] at h; exact ih h

theorem findallLastValid_range (ps : List RE) (s : List Char) (v : ℚ)
    (h : findallLastValid ps s = some v) : 0 ≤ v ∧ v ≤ 100 := by
  induction ps with
  | nil => simp [findallLastValid] at h
  | cons p rest ih =>
    unfold findallLastValid at h
    rcases hr : reFindall p s with _ | ⟨m, ms⟩
    · rw [hr] at h; exact ih h
    · rw [hr] at h
      simp only at h
      by_cases hb : 0 ≤ parseFloatQ ((m :: ms).getLastD []) ∧
          parseFloatQ ((m :: ms).getLastD []) ≤ 100
      · rw [if_pos hb] at h
        obtain rfl : parseFloatQ ((m :: ms).getLastD []) = v := by injection h
        exact hb
      · rw [if_neg hb] at h; exact ih h

theorem firstInRange_range (ms : List (List Char)) (v : ℚ)
    (h : firstInRange ms = some v) : 0 ≤ v ∧ v ≤ 100 := by
  induction ms with
  | nil => simp [firstInRange] at h
  | cons m rest ih =>
    unfold firstInRange at h
    simp only at h
    by_cases hb : 0 ≤ parseFloatQ m ∧ parseFloatQ m ≤ 100
    · rw [if_pos hb] at h
      obtain rfl : parseFloatQ m = v := by injection h
      exact hb
    · rw [if_neg hb] at h; exact ih h

theorem lastResortRule_range (s : List Char) (v : ℚ)
    (h : lastResortRule s = some v) : 0 ≤ v ∧ v ≤ 100 :=
  firstInRange_range _ v h

theorem ite_rule_some {cond : Prop} [Decidable cond] {r : Option ℚ} {v : ℚ}
    (h : (if cond then r else none) = some v) : r = some v := by
  by_cases hc : cond
  · rwa [if_pos hc] at h
  · rw [if_neg hc] at h; exact absurd h (by simp)

/-- C2 (amended): every rule of `_extract_probability` other than the
keyword-section rule and the generic percentage fallback validates its
match against `[0,100]`; any extracted value is either within `[0,100]` or
was produced by one of those two unvalidated rules. -/
theorem extract_value_range_or_unvalidated (content model : List Char) (v : ℚ)
    (h : extractProbability content model = some v) :
    (0 ≤ v ∧ v ≤ 100) ∨ forecastSectionRule content = some v ∨
      percentageFallback content = some v := by
  unfold extractProbability at h
  by_cases hc : content = []
  · rw [if_pos hc] at h; exact absurd h (by simp)
  rw [if_neg hc] at h
  rcases h1 : searchFirstValid hauptprognosePatterns content with _ | w
  swap
  · rw [h1] at h
    obtain rfl : w = v := by injection h
    exact Or.inl (searchFirstValid_range _ _ _ h1)
  rw [h1] at h
  rcases h2 : searchFirstValid prognosePatterns content with _ | w
  swap
  · rw [h2] at h
    obtain rfl : w = v := by injection h
    exact Or.inl (searchFirstValid_range _ _ _ h2)
  rw [h2] at h
  rcases h3 : findallLastValid finalProbPatterns content with _ | w
  swap
  · rw [h3] at h
    obtain rfl : w = v := by injection h
    exact Or.inl (findallLastValid_range _ _ _ h3)
  rw [h3] at h
  rcases h4 : (if containsSub (lowerList model) "deepseek".data then
      searchFirstValid deepseekPatterns content else none) with _ | w
  swap
  · rw [h4] at h
    obtain rfl : w = v := by injection h
    exact Or.inl (searchFirstValid_range _ _ _ (ite_rule_some h4))
  rw [h4] at h
  rcases h5 : (if containsSub (lowerList model) "qwen".data then
      searchFirstValid qwenPatterns content else none) with _ | w
  swap
  · rw [h5] at h
    obtain rfl : w = v := by injection h
    exact Or.inl (searchFirstValid_range _ _ _ (ite_rule_some h5))
  rw [h5] at h
  rcases h6 : searchFirstValid jsonPatterns content with _ | w
  swap
  · rw [h6] at h
    obtain rfl : w = v := by injection h
    exact Or.inl (searchFirstValid_range _ _ _ h6)
  rw [h6] at h
  rcases h7 : forecastSectionRule content with _ | w
  swap
  · rw [h7] at h
    obtain rfl : w = v := by injection h
    exact Or.inr (Or.inl rfl)
  rw [h7] at h
  rcases h8 : percentageFallback content with _ | w
  swap
  · rw [h8] at h
    obtain rfl : w = v := by injection h
    exact Or.inr (Or.inr rfl)
  rw [h8] at h
  rcases h9 : findallLastValid formulaPatterns content with _ | w
  swap
  · rw [h9] at h
    obtain rfl : w = v := by injection h
    exact Or.inl (findallLastValid_range _ _ _ h9)
  rw [h9] at h
  exact Or.inl (lastResortRule_range _ _ h)

theorem parseFloatQ_150 : parseFloatQ ['1', '5', '0'] = 150 := by
  unfold parseFloatQ
  rw [show splitAtDot ['1', '5', '0'] = (['1', '5', '0'], []) from rfl,
    show parseDigitsN ['1', '5', '0'] = 150 from rfl,
    show parseDigitsN ([] : List Char) = 0 from rfl]
  norm_num

theorem extract_150 : extractProbability "150%".data "".data = some 150 := by
  rw [show extractProbability "150%".data "".data = some (parseFloatQ ['1', '5', '0']) from rfl,
    parseFloatQ_150]

/-- Counterexample for C2: the text `"150%"` makes `_extract_probability`
return `150.0` (the fallback percentage rule performs no bounds check), so
the extractor does not reject every out-of-range match. -/
theorem extract_150_out_of_range_counterexample :
    extractProbability "150%".data "".data = some 150 ∧ ¬((150 : ℚ) ≤ 100) :=
  ⟨extract_150, by norm_num⟩

/-- Witness for C2 (amended) at the concrete text `"150%"`: the extracted
value 150 is attributed to the unvalidated percentage fallback. -/
theorem extract_value_range_or_unvalidated_witness :
    (0 ≤ (150 : ℚ) ∧ (150 : ℚ) ≤ 100) ∨
      forecastSectionRule "150%".data = some 150 ∨
      percentageFallback "150%".data = some 150 :=
  extract_value_range_or_unvalidated "150%".data "".data 150 extract_150

/-! ## Concrete extraction for the C7 witness -/

theorem searchFirstValid_cons_some (p : RE) (ps : List RE) (s capt : List Char)
    (h : reSearch p s = some capt) (hv : 0 ≤ parseFloatQ capt ∧ parseFloatQ capt ≤ 100) :
    searchFirstValid (p :: ps) s = some (parseFloatQ capt) := by
  unfold searchFirstValid
  rw [h]
  exact if_pos hv

theorem parseFloatQ_42 : parseFloatQ ['4', '2'] = 42 := by
  unfold parseFloatQ
  rw [show splitAtDot ['4', '2'] = (['4', '2'], []) from rfl,
    show parseDigitsN ['4', '2'] = 42 from rfl,
    show parseDigitsN ([] : List Char) = 0 from rfl]
  norm_num

theorem extract_prognose42 :
    extractProbability "PROGNOSE: 42% okay.".data "m".data = some 42 := by
  have hpr : searchFirstValid prognosePatterns "PROGNOSE: 42% okay.".data =
      some (parseFloatQ ['4', '2']) := by
    unfold prognosePatterns
    exact searchFirstValid_cons_some _ _ _ _ rfl (by rw [parseFloatQ_42]; norm_num)
  unfold extractProbability
  rw [if_neg (by decide : ¬("PROGNOSE: 42% okay.".data = [])),
    show searchFirstValid hauptprognosePatterns "PROGNOSE: 42% okay.".data = none from rfl,
    hpr, parseFloatQ_42]

theorem queryModel_42_eq :
    queryModel "m" (.response (some "PROGNOSE: 42% okay.")) =
      ⟨"m", 0, "success", some "PROGNOSE: 42% okay.", some 42, none⟩ := by
  show (if "PROGNOSE: 42% okay.".data.length < 10 then
      (⟨"m", 0, "empty_response", some "PROGNOSE: 42% okay.", none,
        some "Empty or insufficient response"⟩ : Reply)
    else
      ⟨"m", 0, if isRejectedContent "PROGNOSE: 42% okay." then "rejected" else "success",
        some "PROGNOSE: 42% okay.",
        resetOutOfRange (extractProbability "PROGNOSE: 42% okay.".data "m".data), none⟩) =
    ⟨"m", 0, "success", some "PROGNOSE: 42% okay.", some 42, none⟩
  rw [if_neg (by decide : ¬("PROGNOSE: 42% okay.".data.length < 10)), extract_prognose42,
    show isRejectedContent "PROGNOSE: 42% okay." = false from rfl]
  have h2 : resetOutOfRange (some 42) = some 42 := by
    show (if (42 : ℚ) < 0 ∨ (42 : ℚ) > 100 then none else some (42 : ℚ)) = some 42
    rw [if_neg (by norm_num)]
  rw [h2]
  rfl

/-- Witness for C7 at a concrete successful query. -/
theorem query_reply_invariant_witness :
    (∃ s, (queryModel "m" (.response (some "PROGNOSE: 42% okay."))).content = some s ∧
      s.data ≠ []) ∧ (0 ≤ (42 : ℚ) ∧ (42 : ℚ) ≤ 100) :=
  ⟨(query_reply_invariant "m" (.response (some "PROGNOSE: 42% okay."))).1
      (by rw [queryModel_42_eq]),
    (query_reply_invariant "m" (.response (some "PROGNOSE: 42% okay."))).2 42
      (by rw [queryModel_42_eq])⟩

/-! ## C10: permutation invariance of `calculate_consistency` -/

theorem npMean_perm {s t : List ℝ} (h : s.Perm t) : npMean s = npMean t := by
  unfold npMean
  rw [h.sum_eq, h.length_eq]

theorem sortedList_perm_eq {s t : List ℝ} (h : s.Perm t) : sortedList s = sortedList t :=
  List.eq_of_perm_of_sorted
    (((List.perm_insertionSort _ s).trans h).trans (List.perm_insertionSort _ t).symm)
    (List.sorted_insertionSort _ s) (List.sorted_insertionSort _ t)

theorem npVarP_perm {s t : List ℝ} (h : s.Perm t) : npVarP s = npVarP t := by
  unfold npVarP
  simp only [npMean_perm h]
  exact npMean_perm (h.map _)

theorem npStd_perm {s t : List ℝ} (h : s.Perm t) : npStd s = npStd t :=
  congrArg Real.sqrt (npVarP_perm h)

theorem npMax_perm {s t : List ℝ} (h : s.Perm t) : npMax s = npMax t := by
  unfold npMax
  rw [sortedList_perm_eq h]

theorem npMin_perm {s t : List ℝ} (h : s.Perm t) : npMin s = npMin t := by
  unfold npMin
  rw [sortedList_perm_eq h]

theorem npPercentile_perm {s t : List ℝ} (h : s.Perm t) (q : ℕ) :
    npPercentile s q = npPercentile t q := by
  unfold npPercentile
  rw [sortedList_perm_eq h, h.length_eq]

theorem histogram10_perm {s t : List ℝ} (h : s.Perm t) : histogram10 s = histogram10 t := by
  unfold histogram10
  simp only [h.countP_eq]

theorem directScore_perm {s t : List ℝ} (h : s.Perm t) : directScore s = directScore t := by
  unfold directScore
  simp only [npMean_perm h, npStd_perm h]

theorem indirectScore_perm {s t : List ℝ} (h : s.Perm t) :
    indirectScore s = indirectScore t := by
  unfold indirectScore
  simp only [histogram10_perm h]

theorem ensembleScore_perm {s t : List ℝ} (h : s.Perm t) :
    ensembleScore s = ensembleScore t := by
  unfold ensembleScore
  simp only [npStd_perm h, npMax_perm h, npMin_perm h, npPercentile_perm h]

theorem defaultScore_perm {s t : List ℝ} (h : s.Perm t) : defaultScore s = defaultScore t := by
  unfold defaultScore
  simp only [npStd_perm h]

/-- C10: `ConsistencyScorer.calculate_consistency` is invariant under
permutation of its input list, for every scoring method. -/
theorem calculate_consistency_perm_inv (method : String) (s t : List ℝ) (h : s.Perm t) :
    calculateConsistency method s = calculateConsistency method t := by
  unfold calculateConsistency
  rw [h.length_eq, directScore_perm h, indirectScore_perm h, ensembleScore_perm h,
    defaultScore_perm h]

/-- Witness for C10: the spec's instance `score([10,20,30]) == score([30,10,20])`
with the default `"ensemble"` method. -/
theorem calculate_consistency_perm_inv_witness :
    calculateConsistency "ensemble" [10, 20, 30] = calculateConsistency "ensemble" [30, 10, 20] :=
  calculate_consistency_perm_inv "ensemble" [10, 20, 30] [30, 10, 20]
    (((List.Perm.swap 30 20 []).cons 10).trans (List.Perm.swap 30 10 [20]))

/-! ## C9: the zero-total-weight fallback of the weighted aggregate -/

/-- C9: when the consistency-squared weights sum to zero (and at least one
individual sample exists), `calculate_weighted_aggregate` falls back to the
unweighted mean of all individual samples across all sources. -/
theorem weighted_aggregate_zero_weight_fallback (method : String)
    (mp : List (String × List ℝ)) (hw : (weightedAggregateSums method mp).2 = 0)
    (hne : mp.flatMap (·.2) ≠ []) :
    calculateWeightedAggregate method mp = npMean (mp.flatMap (·.2)) := by
  simp only [calculateWeightedAggregate]
  rw [hw, if_neg (lt_irrefl 0), if_pos hne]

theorem sorted_0_300 : sortedList [(0 : ℝ), 300] = [0, 300] := by
  norm_num [sortedList, List.insertionSort, List.orderedInsert]

theorem npStd_0_300 : npStd [(0 : ℝ), 300] = 150 := by
  have hmean : npMean [(0 : ℝ), 300] = 150 := by
    norm_num [npMean]
  have hvar : npVarP [(0 : ℝ), 300] = 22500 := by
    unfold npVarP
    rw [hmean]
    norm_num [npMean]
  rw [npStd, hvar, show (22500 : ℝ) = 150 ^ 2 by norm_num, Real.sqrt_sq (by norm_num : (0:ℝ) ≤ 150)]

theorem ensembleScore_0_300_nonpos : ensembleScore [(0 : ℝ), 300] ≤ 0 := by
  unfold ensembleScore
  rw [npStd_0_300]
  rw [show npMax [(0 : ℝ), 300] = 300 from by rw [npMax, sorted_0_300]; rfl,
    show npMin [(0 : ℝ), 300] = 0 from by rw [npMin, sorted_0_300]; rfl]
  have h75 : npPercentile [(0 : ℝ), 300] 75 = 225 := by
    unfold npPercentile
    rw [sorted_0_300]
    norm_num
  have h25 : npPercentile [(0 : ℝ), 300] 25 = 75 := by
    unfold npPercentile
    rw [sorted_0_300]
    norm_num
  rw [h75, h25]
  norm_num

theorem consistency_0_300_eq_zero : calculateConsistency "ensemble" [(0 : ℝ), 300] = 0 := by
  unfold calculateConsistency
  rw [if_neg (by norm_num : ¬([(0 : ℝ), 300].length < 2)),
    if_neg (by decide : ¬("ensemble" = "direct")),
    if_neg (by decide : ¬("ensemble" = "indirect")), if_pos rfl]
  unfold npClip
  rw [max_eq_right ensembleScore_0_300_nonpos, min_eq_left (by norm_num : (0 : ℝ) ≤ 1)]

theorem weightedSums_witness_zero :
    (weightedAggregateSums "ensemble" [("m", [(0 : ℝ), 300])]).2 = 0 := by
  simp only [weightedAggregateSums, List.foldl]
  rw [if_neg (by simp : ¬(("m", [(0 : ℝ), 300]).2 = []))]
  norm_num [consistency_0_300_eq_zero]

/-- Witness for C9: a single source whose two out-of-scale samples give
consistency 0, hence total weight 0, with a non-empty flattened sample
list. -/
theorem weighted_aggregate_zero_weight_fallback_witness :
    calculateWeightedAggregate "ensemble" [("m", [(0 : ℝ), 300])] =
      npMean ([("m", [(0 : ℝ), 300])].flatMap (·.2)) :=
  weighted_aggregate_zero_weight_fallback "ensemble" [("m", [(0 : ℝ), 300])]
    weightedSums_witness_zero (by simp)

/-! ## C1: bounds on the Bayesian posterior mean -/

theorem zipWith_pool_sum (ps : List ℚ) :
    ∀ ws : List ℚ, ps.length = ws.length →
      (List.zipWith (fun p w => p * w * 10) ps ws).sum +
        (List.zipWith (fun p w => (1 - p) * w * 10) ps ws).sum = 10 * ws.sum := by
  induction ps with
  | nil =>
    intro ws h
    cases ws with
    | nil => simp
    | cons w ws => simp at h
  | cons p ps ih =>
    intro ws h
    cases ws with
    | nil => simp at h
    | cons w ws =>
      simp only [List.zipWith_cons_cons, List.sum_cons]
      have := ih ws (by simpa using h)
      ring_nf
      ring_nf at this
      linarith

theorem zipWith_weighted_sum_le (b : ℚ) (ps : List ℚ) :
    ∀ ws : List ℚ, ps.length = ws.length → (∀ p ∈ ps, p ≤ b) → (∀ w ∈ ws, 0 ≤ w) →
      (List.zipWith (fun p w => p * w * 10) ps ws).sum ≤ 10 * b * ws.sum := by
  induction ps with
  | nil =>
    intro ws h _ _
    cases ws with
    | nil => simp
    | cons w ws => simp at h
  | cons p ps ih =>
    intro ws h hp hw
    cases ws with
    | nil => simp at h
    | cons w ws =>
      simp only [List.zipWith_cons_cons, List.sum_cons]
      have h1 : p * w ≤ b * w :=
        mul_le_mul_of_nonneg_right (hp p (by simp)) (hw w (by simp))
      have h2 := ih ws (by simpa using h) (fun x hx => hp x (by simp [hx]))
        (fun x hx => hw x (by simp [hx]))
      nlinarith

theorem zipWith_weighted_sum_ge (a : ℚ) (ps : List ℚ) :
    ∀ ws : List ℚ, ps.length = ws.length → (∀ p ∈ ps, a ≤ p) → (∀ w ∈ ws, 0 ≤ w) →
      10 * a * ws.sum ≤ (List.zipWith (fun p w => p * w * 10) ps ws).sum := by
  induction ps with
  | nil =>
    intro ws h _ _
    cases ws with
    | nil => simp
    | cons w ws => simp at h
  | cons p ps ih =>
    intro ws h hp hw
    cases ws with
    | nil => simp at h
    | cons w ws =>
      simp only [List.zipWith_cons_cons, List.sum_cons]
      have h1 : a * w ≤ p * w :=
        mul_le_mul_of_nonneg_right (hp p (by simp)) (hw w (by simp))
      have h2 := ih ws (by simpa using h) (fun x hx => hp x (by simp [hx]))
        (fun x hx => hw x (by simp [hx]))
      nlinarith

theorem zipWith_pos {β : Type} (f : ℚ → β → ℚ) (hf : ∀ w b, 0 < w → 0 < f w b) :
    ∀ (ws : List ℚ) (bs : List β), (∀ w ∈ ws, 0 < w) → ∀ x ∈ List.zipWith f ws bs, 0 < x := by
  intro ws
  induction ws with
  | nil => intro bs _ x hx; simp at hx
  | cons w ws ih =>
    intro bs hw x hx
    cases bs with
    | nil => simp at hx
    | cons b bs =>
      simp only [List.zipWith_cons_cons, List.mem_cons] at hx
      rcases hx with rfl | hx
      · exact hf w b (hw w (by simp))
      · exact ih bs (fun u hu => hw u (by simp [hu])) x hx

theorem confidenceWeights_ones (n : ℕ) :
    confidenceWeights (α := ℚ) n (List.replicate n 1) = List.replicate n 1 := by
  induction n with
  | zero => rfl
  | succ n ih =>
    simp only [confidenceWeights, List.replicate] at ih ⊢
    simp only [List.zipWith_cons_cons, ih, one_mul]

theorem detectOutliers_length (threshold : ℚ) (probs : List ℚ) :
    (detectOutliers threshold probs).length = probs.length := by
  unfold detectOutliers
  split
  · simp
  · dsimp only
    split
    · simp
    · split <;> simp

theorem defaultExpertIds_length (n : ℕ) : (defaultExpertIds n).length = n := by
  simp [defaultExpertIds]

theorem agreementStep_facts (probs ws : List ℚ) (hlen : ws.length = probs.length)
    (hpos : ∀ x ∈ ws, 0 < x) :
    (∀ x ∈ agreementStep probs ws, 0 < x) ∧
      (agreementStep probs ws).length = probs.length := by
  constructor
  · intro x hx
    refine zipWith_pos _ ?_ ws probs hpos x hx
    intro w p hw
    have h5 : (0 : ℚ) < 1 + |p - npAverage probs ws| * 5 := by positivity
    positivity
  · simp [agreementStep, hlen]

theorem expert_weights_default_props (probs : List ℚ) (mask : List Bool)
    (hne : probs ≠ []) (hm : mask.length = probs.length) :
    (∀ x ∈ calculateExpertWeights probs (defaultExpertIds probs.length)
        (List.replicate probs.length 1) mask (fun _ => none), 0 ≤ x) ∧
      (calculateExpertWeights probs (defaultExpertIds probs.length)
        (List.replicate probs.length 1) mask (fun _ => none)).sum = 1 ∧
      (calculateExpertWeights probs (defaultExpertIds probs.length)
        (List.replicate probs.length 1) mask (fun _ => none)).length = probs.length := by
  have h1 : confidenceWeights (α := ℚ) probs.length (List.replicate probs.length 1) =
      List.replicate probs.length 1 := confidenceWeights_ones probs.length
  set w1 : List ℚ := List.replicate probs.length 1 with hw1
  have h1pos : ∀ x ∈ w1, 0 < x := by
    intro x hx
    rw [List.eq_of_mem_replicate hx]
    norm_num
  have h1len : w1.length = probs.length := by simp [hw1]
  -- step 2: outlier penalty
  set w2 := outlierPenalty w1 mask with hw2
  have h2pos : ∀ x ∈ w2, 0 < x := by
    refine zipWith_pos _ ?_ w1 mask h1pos
    intro w o hw
    by_cases h : o <;> simp [h] <;> positivity
  have h2len : w2.length = probs.length := by
    simp [hw2, outlierPenalty, h1len, hm]
  -- step 3: historical weights with an empty table
  set w3 := historicalWeights w2 (defaultExpertIds probs.length) (fun _ => none) with hw3
  have h3pos : ∀ x ∈ w3, 0 < x := by
    refine zipWith_pos _ ?_ w2 (defaultExpertIds probs.length) h2pos
    intro w id hw
    simpa using hw
  have h3len : w3.length = probs.length := by
    simp [hw3, historicalWeights, h2len, defaultExpertIds_length]
  -- step 4: three agreement iterations
  obtain ⟨h4pos, h4len⟩ := agreementStep_facts probs w3 h3len h3pos
  obtain ⟨h5pos, h5len⟩ := agreementStep_facts probs _ h4len h4pos
  obtain ⟨h6pos, h6len⟩ := agreementStep_facts probs _ h5len h5pos
  set w6 := agreementStep probs (agreementStep probs (agreementStep probs w3)) with hw6
  have h6ne : w6 ≠ [] := by
    intro h
    rw [h] at h6len
    exact hne (List.length_eq_zero.mp h6len.symm)
  have hsum : 0 < w6.sum := List.sum_pos w6 h6pos h6ne
  refine ⟨?_, ?_, ?_⟩
  · intro x hx
    simp only [calculateExpertWeights, normalizeWeights, agreementWeights, h1] at hx
    rw [← hw3] at hx
    simp only [← hw6, List.mem_map] at hx
    obtain ⟨w, hw, rfl⟩ := hx
    exact le_of_lt (div_pos (h6pos w hw) hsum)
  · simp only [calculateExpertWeights, normalizeWeights, agreementWeights, h1]
    rw [← hw3, ← hw6, list_sum_map_div, div_self (ne_of_gt hsum)]
  · simp only [calculateExpertWeights, normalizeWeights, agreementWeights, h1]
    rw [← hw3, ← hw6]
    simp [h6len]

theorem bayesianPool_mean_eq (pri : ℚ) (ps ws : List ℚ) :
    (bayesianPool pri ps ws).mean =
      (pri + (List.zipWith (fun p w => p * w * 10) ps ws).sum) /
        ((pri + (List.zipWith (fun p w => p * w * 10) ps ws).sum) +
          (pri + (List.zipWith (fun p w => (1 - p) * w * 10) ps ws).sum)) := rfl

/-- C1 (amended): for a non-empty forecast list bounded by `lo` and `hi`,
the `aggregated_probability` of `aggregate_forecasts` lies within
`[min lo 50, max hi 50]` — the `Beta(1,1)` prior pulls the posterior mean
toward 50, so the claimed interval `[min, max]` must be widened to include
50. -/
theorem aggregated_probability_bounds (fs : List ℚ) (lo hi : ℚ) (hne : fs ≠ [])
    (hb : ∀ x ∈ fs, lo ≤ x ∧ x ≤ hi) :
    min lo 50 ≤ aggregatedProbability fs ∧ aggregatedProbability fs ≤ max hi 50 := by
  set probs := fs.map (· / 100) with hprobs
  have hpne : probs ≠ [] := by
    intro h
    exact hne (List.map_eq_nil_iff.mp h)
  have hmlen : (detectOutliers (5 / 2) probs).length = probs.length :=
    detectOutliers_length _ _
  have hplen : probs.length = fs.length := List.length_map _ _
  obtain ⟨hwpos, hwsum, hwlen⟩ :=
    expert_weights_default_props probs (detectOutliers (5 / 2) probs) hpne hmlen
  have hunfold : aggregatedProbability fs =
      (bayesianPool 1 probs (calculateExpertWeights probs (defaultExpertIds fs.length)
        (List.replicate fs.length 1) (detectOutliers (5 / 2) probs) (fun _ => none))).mean *
        100 := by
    simp only [aggregatedProbability]
  rw [show fs.length = probs.length from hplen.symm] at hunfold
  set ws := calculateExpertWeights probs (defaultExpertIds probs.length)
    (List.replicate probs.length 1) (detectOutliers (5 / 2) probs) (fun _ => none) with hws
  have hbp : ∀ p ∈ probs, lo / 100 ≤ p ∧ p ≤ hi / 100 := by
    intro p hp
    rw [hprobs] at hp
    obtain ⟨x, hx, rfl⟩ := List.mem_map.mp hp
    obtain ⟨hx1, hx2⟩ := hb x hx
    exact ⟨by linarith, by linarith⟩
  have hlen2 : probs.length = ws.length := hwlen.symm
  have hS1le := zipWith_weighted_sum_le (hi / 100) probs ws hlen2
    (fun p hp => (hbp p hp).2) hwpos
  have hS1ge := zipWith_weighted_sum_ge (lo / 100) probs ws hlen2
    (fun p hp => (hbp p hp).1) hwpos
  have hpool := zipWith_pool_sum probs ws hlen2
  rw [hwsum] at hS1le hS1ge hpool
  have hagg : aggregatedProbability fs =
      (1 + (List.zipWith (fun p w => p * w * 10) probs ws).sum) / 12 * 100 := by
    rw [hunfold, bayesianPool_mean_eq]
    have h12 : (1 + (List.zipWith (fun p w => p * w * 10) probs ws).sum) +
        (1 + (List.zipWith (fun p w => (1 - p) * w * 10) probs ws).sum) = 12 := by
      linarith
    rw [h12]
  set S1 := (List.zipWith (fun p w => p * w * 10) probs ws).sum with hS1
  rw [hagg]
  have hmin1 : min lo 50 ≤ lo := min_le_left _ _
  have hmin2 : min lo 50 ≤ 50 := min_le_right _ _
  have hmax1 : hi ≤ max hi 50 := le_max_left _ _
  have hmax2 : (50 : ℚ) ≤ max hi 50 := le_max_right _ _
  constructor
  · rw [div_mul_eq_mul_div, le_div_iff₀ (by norm_num : (0 : ℚ) < 12)]
    have : 10 * (lo / 100) * 1 = lo / 10 := by ring
    rw [this] at hS1ge
    nlinarith
  · rw [div_mul_eq_mul_div, div_le_iff₀ (by norm_num : (0 : ℚ) < 12)]
    have : 10 * (hi / 100) * 1 = hi / 10 := by ring
    rw [this] at hS1le
    nlinarith

theorem aggregatedProbability_single_100 : aggregatedProbability [(100 : ℚ)] = 275 / 3 := by
  norm_num [aggregatedProbability, detectOutliers, calculateExpertWeights, confidenceWeights,
    outlierPenalty, historicalWeights, agreementWeights, agreementStep, normalizeWeights,
    npAverage, bayesianPool, defaultExpertIds, List.replicate, List.range_succ]

/-- Counterexample for C1: on the forecast list `[100]` the aggregated
probability is `275/3 ≈ 91.7`, strictly below `min(forecasts) = 100`, so
the posterior mean does not lie within `[min, max]`. -/
theorem aggregated_probability_outside_minmax :
    aggregatedProbability [(100 : ℚ)] = 275 / 3 ∧ ¬((100 : ℚ) ≤ 275 / 3) :=
  ⟨aggregatedProbability_single_100, by norm_num⟩

/-- Witness for C1 (amended) at the forecast list `[100]`. -/
theorem aggregated_probability_bounds_witness :
    min (100 : ℚ) 50 ≤ aggregatedProbability [(100 : ℚ)] ∧
      aggregatedProbability [(100 : ℚ)] ≤ max (100 : ℚ) 50 :=
  aggregated_probability_bounds [100] 100 100 (by simp)
    (by intro x hx; simp at hx; simp [hx])

/-! ## C6: outlier detection and the 0.1 outlier penalty -/

theorem maskA_eq :
    detectOutliers (5 / 2) (([10, 12, 11, 13, 90] : List ℚ).map (· / 100)) =
      [false, false, false, false, true] := by
  norm_num [detectOutliers, npMedian, sortedList, List.insertionSort, List.orderedInsert,
    decide_eq_true_eq, decide_eq_false_iff_not, abs_div, abs_le, lt_abs]

theorem maskB_eq :
    detectOutliers (5 / 2) (([10, 12, 11, 13, 12] : List ℚ).map (· / 100)) =
      [false, false, false, false, false] := by
  norm_num [detectOutliers, npMedian, sortedList, List.insertionSort, List.orderedInsert,
    decide_eq_true_eq, decide_eq_false_iff_not, abs_div, abs_le, lt_abs]

/-- C6 (amended): with fewer than 3 samples no outlier is flagged; on the
samples `[10,12,11,13,90]` exactly the value 90 is flagged while the run
with 90 replaced by 12 flags nothing; and the outlier-penalty step of the
same run multiplies exactly the flagged weight by the fixed factor 0.1
(the *final* aggregation weight additionally reflects consensus
reweighting and normalization, so it is not 0.1 times the other run's
final weight; see the counterexample). -/
theorem outlier_detection_and_penalty (probs : List ℚ) (hlt : probs.length < 3) :
    detectOutliers (5 / 2) probs = List.replicate probs.length false ∧
    detectOutliers (5 / 2) (([10, 12, 11, 13, 90] : List ℚ).map (· / 100)) =
      [false, false, false, false, true] ∧
    detectOutliers (5 / 2) (([10, 12, 11, 13, 12] : List ℚ).map (· / 100)) =
      [false, false, false, false, false] ∧
    outlierPenalty (confidenceWeights 5 (List.replicate 5 (1 : ℚ)))
        [false, false, false, false, true] = [1, 1, 1, 1, 1 / 10] ∧
    (outlierPenalty (confidenceWeights 5 (List.replicate 5 (1 : ℚ)))
        [false, false, false, false, true]).getD 4 0 =
      (1 / 10) * (outlierPenalty (confidenceWeights 5 (List.replicate 5 (1 : ℚ)))
        [false, false, false, false, false]).getD 4 0 := by
  refine ⟨?_, maskA_eq, maskB_eq, ?_, ?_⟩
  · unfold detectOutliers
    rw [if_pos hlt]
  · norm_num [outlierPenalty, confidenceWeights, List.replicate]
  · norm_num [outlierPenalty, confidenceWeights, List.replicate]

/-- Witness for C6 at a two-sample list. -/
theorem outlier_detection_and_penalty_witness :
    detectOutliers (5 / 2) ([40, 60] : List ℚ) = List.replicate ([40, 60] : List ℚ).length false ∧
      detectOutliers (5 / 2) (([10, 12, 11, 13, 90] : List ℚ).map (· / 100)) =
        [false, false, false, false, true] :=
  ⟨(outlier_detection_and_penalty [40, 60] (by norm_num)).1,
    (outlier_detection_and_penalty [40, 60] (by norm_num)).2.1⟩

/-- Counterexample for C6: the final aggregation weight of the outlying
sample is not the fixed factor 0.1 times its weight in the identical run
with 90 replaced by 12 — consensus reweighting and normalization change the
ratio. -/
theorem final_weight_not_tenth_of_replaced_run :
    (calculateExpertWeights (([10, 12, 11, 13, 90] : List ℚ).map (· / 100))
        (defaultExpertIds 5) (List.replicate 5 1)
        (detectOutliers (5 / 2) (([10, 12, 11, 13, 90] : List ℚ).map (· / 100)))
        (fun _ => none)).getD 4 0 ≠
      (1 / 10) * (calculateExpertWeights (([10, 12, 11, 13, 12] : List ℚ).map (· / 100))
        (defaultExpertIds 5) (List.replicate 5 1)
        (detectOutliers (5 / 2) (([10, 12, 11, 13, 12] : List ℚ).map (· / 100)))
        (fun _ => none)).getD 4 0 := by
  rw [maskA_eq, maskB_eq]
  norm_num [calculateExpertWeights, confidenceWeights, outlierPenalty, historicalWeights,
    agreementWeights, agreementStep, normalizeWeights, npAverage, defaultExpertIds,
    List.replicate, List.range_succ, abs_div]

end Foresight
